import Mathlib

/-
Verification development for the NEF Parser (nef_parser.c, tiff.h, exif.h, nef.h).

The C program is shallowly embedded: the file buffer is a `List Nat` of byte
values, machine integers are `Nat` with explicit `% 2^w` where overflow can
occur, and every helper keeps the structure of its C counterpart.  Reads past
the end of the buffer (undefined behavior in C) are modelled as returning 0
via `List.getD`; the spots where this matters are noted at the theorems.
-/

/-! ## Byte-buffer primitives -/

/-- Read one byte of the file buffer (out-of-range reads give 0). -/
def byteAt (b : List Nat) (off : Nat) : Nat := b.getD off 0

/-- Little-endian 16-bit read, as the x86 C code does via a `uint16_t*` cast. -/
def le16 (b : List Nat) (off : Nat) : Nat :=
  byteAt b off + 256 * byteAt b (off + 1)

/-- Little-endian 32-bit read, as the x86 C code does via a `uint32_t*` cast. -/
def le32 (b : List Nat) (off : Nat) : Nat :=
  byteAt b off + 256 * byteAt b (off + 1) + 65536 * byteAt b (off + 2) +
    16777216 * byteAt b (off + 3)

/-- The four bytes of a 32-bit value in memory order (little-endian). -/
def valueBytes (v : Nat) : List Nat :=
  [v % 256, v / 256 % 256, v / 65536 % 256, v / 16777216 % 256]

/-- The bytes a C string read observes: everything up to the first NUL. -/
def cstring (l : List Nat) : List Nat := l.takeWhile (fun b => b != 0)

/-- `n` raw bytes starting at `off` (short if the buffer ends first). -/
def readBytes (b : List Nat) (off n : Nat) : List Nat := (b.drop off).take n

/-! ## The Nikon cipher (`decrypt`, nef_parser.c lines 119-147) -/

-- Translation tables used to decrypt lens data fields (`xlat[2][256]`).
def xlat0 : List Nat :=
  [
    0xc1, 0xbf, 0x6d, 0x0d, 0x59, 0xc5, 0x13, 0x9d, 0x83, 0x61, 0x6b, 0x4f, 0xc7, 0x7f, 0x3d, 0x3d,
    0x53, 0x59, 0xe3, 0xc7, 0xe9, 0x2f, 0x95, 0xa7, 0x95, 0x1f, 0xdf, 0x7f, 0x2b, 0x29, 0xc7, 0x0d,
    0xdf, 0x07, 0xef, 0x71, 0x89, 0x3d, 0x13, 0x3d, 0x3b, 0x13, 0xfb, 0x0d, 0x89, 0xc1, 0x65, 0x1f,
    0xb3, 0x0d, 0x6b, 0x29, 0xe3, 0xfb, 0xef, 0xa3, 0x6b, 0x47, 0x7f, 0x95, 0x35, 0xa7, 0x47, 0x4f,
    0xc7, 0xf1, 0x59, 0x95, 0x35, 0x11, 0x29, 0x61, 0xf1, 0x3d, 0xb3, 0x2b, 0x0d, 0x43, 0x89, 0xc1,
    0x9d, 0x9d, 0x89, 0x65, 0xf1, 0xe9, 0xdf, 0xbf, 0x3d, 0x7f, 0x53, 0x97, 0xe5, 0xe9, 0x95, 0x17,
    0x1d, 0x3d, 0x8b, 0xfb, 0xc7, 0xe3, 0x67, 0xa7, 0x07, 0xf1, 0x71, 0xa7, 0x53, 0xb5, 0x29, 0x89,
    0xe5, 0x2b, 0xa7, 0x17, 0x29, 0xe9, 0x4f, 0xc5, 0x65, 0x6d, 0x6b, 0xef, 0x0d, 0x89, 0x49, 0x2f,
    0xb3, 0x43, 0x53, 0x65, 0x1d, 0x49, 0xa3, 0x13, 0x89, 0x59, 0xef, 0x6b, 0xef, 0x65, 0x1d, 0x0b,
    0x59, 0x13, 0xe3, 0x4f, 0x9d, 0xb3, 0x29, 0x43, 0x2b, 0x07, 0x1d, 0x95, 0x59, 0x59, 0x47, 0xfb,
    0xe5, 0xe9, 0x61, 0x47, 0x2f, 0x35, 0x7f, 0x17, 0x7f, 0xef, 0x7f, 0x95, 0x95, 0x71, 0xd3, 0xa3,
    0x0b, 0x71, 0xa3, 0xad, 0x0b, 0x3b, 0xb5, 0xfb, 0xa3, 0xbf, 0x4f, 0x83, 0x1d, 0xad, 0xe9, 0x2f,
    0x71, 0x65, 0xa3, 0xe5, 0x07, 0x35, 0x3d, 0x0d, 0xb5, 0xe9, 0xe5, 0x47, 0x3b, 0x9d, 0xef, 0x35,
    0xa3, 0xbf, 0xb3, 0xdf, 0x53, 0xd3, 0x97, 0x53, 0x49, 0x71, 0x07, 0x35, 0x61, 0x71, 0x2f, 0x43,
    0x2f, 0x11, 0xdf, 0x17, 0x97, 0xfb, 0x95, 0x3b, 0x7f, 0x6b, 0xd3, 0x25, 0xbf, 0xad, 0xc7, 0xc5,
    0xc5, 0xb5, 0x8b, 0xef, 0x2f, 0xd3, 0x07, 0x6b, 0x25, 0x49, 0x95, 0x25, 0x49, 0x6d, 0x71, 0xc7
  ]

def xlat1 : List Nat :=
  [
    0xa7, 0xbc, 0xc9, 0xad, 0x91, 0xdf, 0x85, 0xe5, 0xd4, 0x78, 0xd5, 0x17, 0x46, 0x7c, 0x29, 0x4c,
    0x4d, 0x03, 0xe9, 0x25, 0x68, 0x11, 0x86, 0xb3, 0xbd, 0xf7, 0x6f, 0x61, 0x22, 0xa2, 0x26, 0x34,
    0x2a, 0xbe, 0x1e, 0x46, 0x14, 0x68, 0x9d, 0x44, 0x18, 0xc2, 0x40, 0xf4, 0x7e, 0x5f, 0x1b, 0xad,
    0x0b, 0x94, 0xb6, 0x67, 0xb4, 0x0b, 0xe1, 0xea, 0x95, 0x9c, 0x66, 0xdc, 0xe7, 0x5d, 0x6c, 0x05,
    0xda, 0xd5, 0xdf, 0x7a, 0xef, 0xf6, 0xdb, 0x1f, 0x82, 0x4c, 0xc0, 0x68, 0x47, 0xa1, 0xbd, 0xee,
    0x39, 0x50, 0x56, 0x4a, 0xdd, 0xdf, 0xa5, 0xf8, 0xc6, 0xda, 0xca, 0x90, 0xca, 0x01, 0x42, 0x9d,
    0x8b, 0x0c, 0x73, 0x43, 0x75, 0x05, 0x94, 0xde, 0x24, 0xb3, 0x80, 0x34, 0xe5, 0x2c, 0xdc, 0x9b,
    0x3f, 0xca, 0x33, 0x45, 0xd0, 0xdb, 0x5f, 0xf5, 0x52, 0xc3, 0x21, 0xda, 0xe2, 0x22, 0x72, 0x6b,
    0x3e, 0xd0, 0x5b, 0xa8, 0x87, 0x8c, 0x06, 0x5d, 0x0f, 0xdd, 0x09, 0x19, 0x93, 0xd0, 0xb9, 0xfc,
    0x8b, 0x0f, 0x84, 0x60, 0x33, 0x1c, 0x9b, 0x45, 0xf1, 0xf0, 0xa3, 0x94, 0x3a, 0x12, 0x77, 0x33,
    0x4d, 0x44, 0x78, 0x28, 0x3c, 0x9e, 0xfd, 0x65, 0x57, 0x16, 0x94, 0x6b, 0xfb, 0x59, 0xd0, 0xc8,
    0x22, 0x36, 0xdb, 0xd2, 0x63, 0x98, 0x43, 0xa1, 0x04, 0x87, 0x86, 0xf7, 0xa6, 0x26, 0xbb, 0xd6,
    0x59, 0x4d, 0xbf, 0x6a, 0x2e, 0xaa, 0x2b, 0xef, 0xe6, 0x78, 0xb6, 0x4e, 0xe0, 0x2f, 0xdc, 0x7c,
    0xbe, 0x57, 0x19, 0x32, 0x7e, 0x2a, 0xd0, 0xb8, 0xba, 0x29, 0x00, 0x3c, 0x52, 0x7d, 0xa8, 0x49,
    0x3b, 0x2d, 0xeb, 0x25, 0x49, 0xfa, 0xa3, 0xaa, 0x39, 0xa7, 0xc5, 0xa7, 0x50, 0x11, 0x36, 0xfb,
    0xc6, 0x67, 0x4a, 0xf5, 0xa5, 0x12, 0x65, 0x7e, 0xb0, 0xdf, 0xaf, 0x4e, 0xb3, 0x61, 0x7f, 0x2f
  ]

/-- Byte predicate for `isspace` as used by `strtoull`. -/
def isSpaceByte (c : Nat) : Bool := c == 32 || decide (9 ≤ c ∧ c ≤ 13)

/-- ASCII decimal digit test. -/
def isDigitByte (c : Nat) : Bool := decide (48 ≤ c ∧ c ≤ 57)

/-- Accumulate the leading decimal digits of a byte string. -/
def decDigits : List Nat → Nat → Nat
  | [], acc => acc
  | c :: rest, acc =>
      if isDigitByte c then decDigits rest (acc * 10 + (c - 48)) else acc

def ULLONG_MAX : Nat := 2 ^ 64 - 1

/-- Model of C `strtoull(s, NULL, 10)`: skip leading whitespace, allow an
optional sign, convert the digit prefix, and clamp overflow to
`ULLONG_MAX` as the C library does. -/
def strtoull10 (s : List Nat) : Nat :=
  match s.dropWhile isSpaceByte with
  | 43 :: r => min (decDigits r 0) ULLONG_MAX
  | 45 :: r =>
      if decDigits r 0 ≤ ULLONG_MAX then (2 ^ 64 - decDigits r 0) % 2 ^ 64
      else ULLONG_MAX
  | r => min (decDigits r 0) ULLONG_MAX

/-- The `key` accumulation loop of `decrypt`: XOR of the four bytes of the
shutter count (`key ^= (shutter_count >> (i * 8)) & 0xFF` for i = 0..3). -/
def xor4 (c : Nat) : Nat :=
  (((0 ^^^ (c >>> 0 &&& 0xFF)) ^^^ (c >>> 8 &&& 0xFF)) ^^^ (c >>> 16 &&& 0xFF))
    ^^^ (c >>> 24 &&& 0xFF)

/-- The keystream loop of `decrypt` (lines 140-145): state is the running
pair (cj, ck), each byte is XORed with the updated cj. -/
def decryptLoop (ci : Nat) : List Nat → Nat → Nat → List Nat
  | [], _, _ => []
  | b :: rest, cj, ck =>
      (b ^^^ (cj + ci * ck) % 256) ::
        decryptLoop ci rest ((cj + ci * ck) % 256) ((ck + 1) % 256)

/-- `decrypt(data, size, serial_number, shutter_count)` from nef_parser.c:
`ci = xlat[0][strtoull(serial) & 0xFF]`, `cj = xlat[1][key]`, `ck = 0x60`,
then the keystream loop.  (The C guard `size != 0` is subsumed: the loop on
an empty list is a no-op.) -/
def decrypt (data serial : List Nat) (shutter : Nat) : List Nat :=
  decryptLoop (xlat0.getD (strtoull10 serial % 256) 0) data
    (xlat1.getD (xor4 shutter) 0) 0x60

/-! ## Spec-side keystream (claim C1's wording)

These definitions follow the specification text, to be compared with the
source-derived `decrypt`: the counter at position i is `(0x60 + i) % 256`,
`cj` evolves by `cj := (cj + ci * ck) % 256` at each position, and the output
byte at position i is the input byte XOR the updated `cj`. -/

/-- Spec wording: the running counter at byte position `i` (starts at 0x60,
incremented mod 256 at every position). -/
def ckAt (i : Nat) : Nat := (0x60 + i) % 256

/-- Spec wording: the value of `cj` after the first `i` positions have been
processed (`cj := (cj + ci * ck) mod 256` at each position). -/
def cjAt (ci cj0 : Nat) : Nat → Nat
  | 0 => cj0
  | i + 1 => (cjAt ci cj0 i + ci * ckAt i) % 256

/-- Spec wording: output byte at position `i` is input byte XOR the updated
`cj`, for every position in order. -/
def decryptSpecGo (ci cj0 : Nat) : Nat → List Nat → List Nat
  | _, [] => []
  | i, b :: rest => (b ^^^ cjAt ci cj0 (i + 1)) :: decryptSpecGo ci cj0 (i + 1) rest

/-- The decryption map exactly as claim C1 words it: seed `ci` is table A
indexed by the serial number parsed as a decimal integer mod 256, seed `cj`
is table B indexed by the XOR of the four shutter-count bytes, counter from
0x60, output bytes by position. -/
def decryptSpec (data serial : List Nat) (shutter : Nat) : List Nat :=
  decryptSpecGo (xlat0.getD (strtoull10 serial % 256) 0)
    (xlat1.getD (xor4 shutter) 0) 0 data

theorem decryptLoop_eq_specGo (ci cj0 : Nat) :
    ∀ (data : List Nat) (i : Nat),
      decryptLoop ci data (cjAt ci cj0 i) (ckAt i) = decryptSpecGo ci cj0 i data := by
  intro data
  induction data with
  | nil => intro i; rfl
  | cons b rest ih =>
    intro i
    have hck : (ckAt i + 1) % 256 = ckAt (i + 1) := by
      simp [ckAt, Nat.mod_add_mod, Nat.add_assoc]
    have hcj : (cjAt ci cj0 i + ci * ckAt i) % 256 = cjAt ci cj0 (i + 1) := rfl
    simp only [decryptLoop, decryptSpecGo, hcj, hck, List.cons.injEq, true_and]
    exact ih (i + 1)

theorem decryptLoop_involutive (ci : Nat) :
    ∀ (data : List Nat) (cj ck : Nat),
      decryptLoop ci (decryptLoop ci data cj ck) cj ck = data := by
  intro data
  induction data with
  | nil => intro cj ck; rfl
  | cons b rest ih =>
    intro cj ck
    simp only [decryptLoop, List.cons.injEq]
    exact ⟨by rw [Nat.xor_assoc, Nat.xor_self, Nat.xor_zero], ih _ _⟩

/-- C1: the lens-data decryption keystream is generated exactly as the
specification states: seed `ci` from table A at the serial number parsed as
a decimal integer mod 256, seed `cj` from table B at the XOR of the four
shutter-count bytes, counter `ck` from 0x60, and per position `cj := (cj +
ci*ck) mod 256`, `ck := (ck + 1) mod 256`, output = input XOR cj. -/
theorem C1_decrypt_keystream (data serial : List Nat) (shutter : Nat) :
    decrypt data serial shutter = decryptSpec data serial shutter := by
  have h := decryptLoop_eq_specGo (xlat0.getD (strtoull10 serial % 256) 0)
    (xlat1.getD (xor4 shutter) 0) data 0
  simpa [decrypt, decryptSpec, cjAt, ckAt] using h

/-- C9: `decrypt` is an involution for fixed serial number and shutter count
(the cipher is a self-inverse XOR keystream). -/
theorem C9_decrypt_involutive (data serial : List Nat) (shutter : Nat) :
    decrypt (decrypt data serial shutter) serial shutter = data :=
  decryptLoop_involutive _ data _ _

/-- C10: the output of `decrypt` depends on its keys only through the serial
number parsed as a decimal integer mod 256 and through the XOR of the four
shutter-count bytes. -/
theorem C10_key_reduction (data s1 s2 : List Nat) (c1 c2 : Nat)
    (hs : strtoull10 s1 % 256 = strtoull10 s2 % 256)
    (hc : xor4 c1 = xor4 c2) :
    decrypt data s1 c1 = decrypt data s2 c2 := by
  unfold decrypt
  rw [hs, hc]

/-- Witness for C10 at concrete keys: serial strings "1" and "257" parse to
integers congruent mod 256, shutter counts 0 and 0x01010000 have equal
byte-XOR, and decryption of the byte 171 agrees. -/
theorem C10_key_reduction_witness :
    strtoull10 [49] % 256 = strtoull10 [50, 53, 55] % 256 ∧
    xor4 0 = xor4 16842752 ∧
    decrypt [171] [49] 0 = decrypt [171] [50, 53, 55] 16842752 :=
  ⟨by decide, by decide,
    C10_key_reduction [171] [49] [50, 53, 55] 0 16842752 (by decide) (by decide)⟩

/-! ## TIFF directory entries and the field decoders -/

def TIFF_MAGIC : Nat := 0x2A
def TIFF_LITTLE_ENDIAN : Nat := 0x4949
def TIFF_TYPE_ASCII : Nat := 2
def TIFF_TYPE_RATIONAL : Nat := 5

/-- `struct ifd_entry_t` (tiff.h): 16-bit tag and type, 32-bit count and
value/offset field. -/
structure IfdEntry where
  tag : Nat
  type : Nat
  count : Nat
  value : Nat
deriving DecidableEq, Repr

/-- Result of a C `float` expression as the source observes it: a finite
quotient (kept exact; float rounding is abstracted), IEEE +infinity, or NaN.
The operands here are unsigned, so -infinity cannot arise. -/
inductive FloatVal where
  | fin (q : ℚ)
  | inf
  | nan
deriving DecidableEq, Repr

/-- IEEE semantics of `(float)num / (float)den` for nonnegative operands:
0/0 is NaN, n/0 with n nonzero is +infinity, otherwise the quotient. -/
def floatDiv (num den : Nat) : FloatVal :=
  if den = 0 then (if num = 0 then FloatVal.nan else FloatVal.inf)
  else FloatVal.fin ((num : ℚ) / (den : ℚ))

/-- `get_tiff_rational` (nef_parser.c lines 191-216): the buffer is cast to a
`uint32_t*` and indexed at `BYTES_TO_DWORDS(entry->value)` = `value >> 2`,
so the numerator is the 32-bit word at byte position `4 * (value >> 2)` and
the denominator the word after it.  A non-RATIONAL entry leaves the initial
`rational = 0` in place (the C prints an error and returns 0). -/
def get_tiff_rational (e : IfdEntry) (buffer : List Nat) : FloatVal :=
  if e.type = TIFF_TYPE_RATIONAL then
    floatDiv (le32 buffer (4 * (e.value >>> 2))) (le32 buffer (4 * (e.value >>> 2) + 4))
  else FloatVal.fin 0

/-- The bytes the string of `get_makernote_string` is read from: out-of-line
at `makernote_offset + tiff_offset + entry->value` when `count > 4`, else
the four bytes of the inline value field.  (In C, reading past the 4 inline
bytes or past the buffer is undefined behavior; the model ends the source
there.) -/
def stringSource (mno tiffOff : Nat) (e : IfdEntry) (buffer : List Nat) : List Nat :=
  if e.count > 4 then buffer.drop (mno + tiffOff + e.value) else valueBytes e.value

/-- `get_makernote_string` (nef_parser.c lines 230-263): returns a `char*`
into the buffer (or into the entry's value field), i.e. the observable
string is everything up to the first NUL; `none` models the NULL returned
for a non-ASCII entry.  The file-scope globals `makernote_offset` and
`tiff_offset` are passed as the parameters `mno` and `tiffOff`. -/
def get_makernote_string (mno tiffOff : Nat) (e : IfdEntry) (buffer : List Nat) :
    Option (List Nat) :=
  if e.type = TIFF_TYPE_ASCII then some (cstring (stringSource mno tiffOff e buffer))
  else none

/-! ## ISO computation (nef_parser.c lines 547-558) -/

/-- The intermediate `(uint32_t)(100 * pow(2, raw / 12 - 5))`: the C library
`pow` over `double` is modelled as exact real exponentiation, and the cast
truncates toward zero. -/
noncomputable def isoTrunc (raw : Nat) : Nat :=
  Int.toNat ⌊(100 : ℝ) * (2 : ℝ) ^ ((raw : ℝ) / 12 - 5)⌋

/-- The ISO computation of the NIKON_TAG_ISO_INFO case: truncate
`100 * 2^(raw/12 - 5)` to a `uint32_t` (the `% 2^32` marks the cast's range;
a result at or above `2^32` would be undefined behavior in C), then round up
to the next multiple of 10 when the remainder is nonzero. -/
noncomputable def isoOfRaw (raw : Nat) : Nat :=
  if (isoTrunc raw % 2 ^ 32) % 10 = 0 then isoTrunc raw % 2 ^ 32
  else isoTrunc raw % 2 ^ 32 + (10 - (isoTrunc raw % 2 ^ 32) % 10)

theorem isoTrunc_zero : isoTrunc 0 = 3 := by
  unfold isoTrunc
  have h1 : ((0 : Nat) : ℝ) / 12 - 5 = ((-5 : ℤ) : ℝ) := by norm_num
  rw [h1, Real.rpow_intCast]
  have h2 : (100 : ℝ) * (2 : ℝ) ^ (-5 : ℤ) = 25 / 8 := by norm_num
  rw [h2]
  have h3 : ⌊(25 / 8 : ℝ)⌋ = 3 := by
    rw [Int.floor_eq_iff]
    norm_num
  rw [h3]
  rfl

/-- C3 counterexample: a RATIONAL entry whose value field is 2 (not divisible
by 4).  The decoder reads the words at byte position 0, not at byte position
2 as the claim states, so the claimed location formula fails. -/
theorem C3_counterexample :
    get_tiff_rational ⟨0x829A, 5, 1, 2⟩ [1, 0, 0, 0, 2, 0, 0, 0, 3, 0, 0, 0] =
      FloatVal.fin (1 / 2) ∧
    get_tiff_rational ⟨0x829A, 5, 1, 2⟩ [1, 0, 0, 0, 2, 0, 0, 0, 3, 0, 0, 0] ≠
      floatDiv (le32 [1, 0, 0, 0, 2, 0, 0, 0, 3, 0, 0, 0] 2)
        (le32 [1, 0, 0, 0, 2, 0, 0, 0, 3, 0, 0, 0] (2 + 4)) := by
  constructor
  · show floatDiv 1 2 = FloatVal.fin (1 / 2)
    norm_num [floatDiv]
  · show floatDiv 1 2 ≠ floatDiv 131072 196608
    norm_num [floatDiv]

/-- C3 amended: for every RATIONAL directory entry whose value field is
divisible by 4, the decoder returns numerator/denominator taken from the two
consecutive 32-bit words at byte position `entry.value`; for other value
fields the read happens at `entry.value` rounded down to a multiple of 4. -/
theorem C3_rational_aligned (e : IfdEntry) (buffer : List Nat)
    (ht : e.type = TIFF_TYPE_RATIONAL) (ha : e.value % 4 = 0) :
    get_tiff_rational e buffer =
      floatDiv (le32 buffer e.value) (le32 buffer (e.value + 4)) := by
  have h4 : 4 * (e.value >>> 2) = e.value := by
    rw [Nat.shiftRight_eq_div_pow]
    omega
  simp [get_tiff_rational, ht, h4]

/-- Witness for the amended C3 at a concrete aligned entry: value 4 addresses
the words (1, 250), decoded as 1/250. -/
theorem C3_rational_aligned_witness :
    (⟨0x829A, 5, 1, 4⟩ : IfdEntry).type = TIFF_TYPE_RATIONAL ∧
    (⟨0x829A, 5, 1, 4⟩ : IfdEntry).value % 4 = 0 ∧
    get_tiff_rational ⟨0x829A, 5, 1, 4⟩ [9, 9, 9, 9, 1, 0, 0, 0, 250, 0, 0, 0] =
      floatDiv (le32 [9, 9, 9, 9, 1, 0, 0, 0, 250, 0, 0, 0] 4)
        (le32 [9, 9, 9, 9, 1, 0, 0, 0, 250, 0, 0, 0] (4 + 4)) :=
  ⟨rfl, rfl, C3_rational_aligned _ _ rfl rfl⟩

/-- C4 (code bug): on a RATIONAL entry whose stored denominator is 0 the
decoder performs the float division anyway and produces IEEE +infinity; no
error path exists in `get_tiff_rational` for a zero denominator. -/
theorem C4_zero_denominator : 
    get_tiff_rational ⟨0x829A, 5, 1, 0⟩ [1, 0, 0, 0, 0, 0, 0, 0] = FloatVal.inf := by
  show floatDiv 1 0 = FloatVal.inf
  norm_num [floatDiv]

/-- C7 counterexample: for raw ISO-info byte 0 the code computes
`(uint32_t)(100 * 2^(0/12 - 5)) = (uint32_t)3.125 = 3`, then rounds up to
the next multiple of 10, printing ISO 10 - not ISO 100 as the claim states. -/
theorem C7_counterexample : isoOfRaw 0 = 10 ∧ isoOfRaw 0 ≠ 100 := by
  have h10 : isoOfRaw 0 = 10 := by
    unfold isoOfRaw
    rw [isoTrunc_zero]
    norm_num
  exact ⟨h10, by rw [h10]; norm_num⟩

theorem roundUp10_eq (t : Nat) :
    (if t % 10 = 0 then t else t + (10 - t % 10)) = 10 * ((t + 9) / 10) := by
  by_cases h : t % 10 = 0 <;> simp [h] <;> omega

theorem isoTrunc_lt (r : Nat) (hr : r < 256) : isoTrunc r < 2 ^ 32 := by
  have hble : ((r : Nat) : ℝ) ≤ 255 := by exact_mod_cast Nat.lt_succ_iff.mp hr
  have hle : ((r : Nat) : ℝ) / 12 - 5 ≤ 17 := by linarith
  have hx : (2 : ℝ) ^ (((r : Nat) : ℝ) / 12 - 5) ≤ (2 : ℝ) ^ (17 : ℝ) :=
    Real.rpow_le_rpow_of_exponent_le (by norm_num) hle
  have h17 : (2 : ℝ) ^ (17 : ℝ) = 131072 := by
    rw [show (17 : ℝ) = ((17 : Nat) : ℝ) by norm_num, Real.rpow_natCast]
    norm_num
  have hxx : (100 : ℝ) * (2 : ℝ) ^ (((r : Nat) : ℝ) / 12 - 5) ≤ 13107200 := by
    rw [h17] at hx; linarith
  have hfloor : ⌊(100 : ℝ) * (2 : ℝ) ^ (((r : Nat) : ℝ) / 12 - 5)⌋ ≤ 13107200 := by
    have := Int.floor_le_floor (α := ℝ) hxx
    rwa [show ((13107200 : ℝ)) = ((13107200 : ℤ) : ℝ) by norm_num,
      Int.floor_intCast] at this
  have htn : isoTrunc r ≤ 13107200 := by
    unfold isoTrunc
    exact_mod_cast Int.toNat_le_toNat hfloor
  exact Nat.lt_of_le_of_lt htn (by norm_num)

/-- C7 amended: the ISO computation truncates `100 * 2^(raw/12 - 5)` to an
integer and then rounds up to the next multiple of 10 (equivalently,
`10 * ceil(t/10)` of the truncated value `t`); in particular raw byte 0
yields ISO 10, not ISO 100. -/
theorem C7_iso_roundup (r : Nat) (hr : r < 256) :
    isoOfRaw r = 10 * ((isoTrunc r + 9) / 10) := by
  have hb := isoTrunc_lt r hr
  unfold isoOfRaw
  rw [Nat.mod_eq_of_lt hb]
  exact roundUp10_eq _

/-- Witness for the amended C7 at raw byte 0. -/
theorem C7_iso_roundup_witness :
    (0 : Nat) < 256 ∧ isoOfRaw 0 = 10 * ((isoTrunc 0 + 9) / 10) :=
  ⟨by norm_num, C7_iso_roundup 0 (by norm_num)⟩

theorem takeWhile_eq_take_of_nul (l : List Nat) :
    ∀ k, (∀ b ∈ l.take k, b ≠ 0) → l[k]? = some 0 →
      l.takeWhile (fun b => b != 0) = l.take k := by
  induction l with
  | nil => intro k _ hget; simp at hget
  | cons a as ih =>
    intro k hpre hget
    cases k with
    | zero =>
      simp only [List.getElem?_cons_zero, Option.some.injEq] at hget
      simp [List.takeWhile, hget]
    | succ k =>
      have ha : a ≠ 0 := hpre a (by simp)
      have hpre2 : ∀ b ∈ as.take k, b ≠ 0 := fun b hb => hpre b (by simp [hb])
      have hget2 : as[k]? = some 0 := by simpa using hget
      have hb : (a != 0) = true := by simpa using ha
      simp [List.takeWhile, hb, ih k hpre2 hget2]

/-- C8 counterexample: an ASCII entry with `count = 2` whose inline value
bytes are 'A','B','C',0.  The decoder returns the pointer's NUL-terminated
string "ABC" - three bytes, not the claimed `count` bytes with the
terminator dropped (which would be the single byte 'A'), and the read runs
past `entry.count` bytes. -/
theorem C8_counterexample :
    get_makernote_string 0 0 ⟨29, 2, 2, 4407873⟩ [] = some [65, 66, 67] ∧
    ¬([65, 66, 67] = (stringSource 0 0 ⟨29, 2, 2, 4407873⟩ []).take (2 - 1) ∧
      List.length [65, 66, 67] + 1 ≤ 2) := by
  constructor
  · rfl
  · intro h
    exact absurd h.2 (by norm_num)

/-- C8 amended: the decoder returns the NUL-terminated string starting at the
inline value field (`count <= 4`) or at `makernote_offset + tiff_offset +
entry.value` (`count > 4`); whenever the source bytes are well-formed - the
byte at position `count - 1` is the NUL terminator and the bytes before it
are nonzero - this is exactly the `entry.count` bytes with the trailing
terminator dropped, and no byte past `entry.count` is read.  (For data with
no NUL inside `count` bytes the code instead reads up to the next zero
byte.) -/
theorem C8_string_trimmed (mno tiffOff : Nat) (e : IfdEntry) (buffer : List Nat)
    (ht : e.type = TIFF_TYPE_ASCII) (hc : 1 ≤ e.count)
    (hterm : (stringSource mno tiffOff e buffer)[e.count - 1]? = some 0)
    (hpre : ∀ b ∈ (stringSource mno tiffOff e buffer).take (e.count - 1), b ≠ 0) :
    get_makernote_string mno tiffOff e buffer =
      some ((stringSource mno tiffOff e buffer).take (e.count - 1)) ∧
    ((stringSource mno tiffOff e buffer).take (e.count - 1)).length + 1 ≤ e.count := by
  have hsrc := takeWhile_eq_take_of_nul (stringSource mno tiffOff e buffer)
    (e.count - 1) hpre hterm
  constructor
  · simp [get_makernote_string, ht, cstring, hsrc]
  · have hlt : e.count - 1 < (stringSource mno tiffOff e buffer).length := by
      obtain ⟨h, -⟩ := List.getElem?_eq_some.mp hterm
      exact h
    rw [List.length_take]
    omega

/-- Witness for the amended C8: an out-of-line ASCII entry of count 6 whose
six bytes are 'A'..'E' followed by the NUL terminator; the decoder returns
exactly those five characters. -/
theorem C8_string_trimmed_witness :
    (⟨29, 2, 6, 1⟩ : IfdEntry).type = TIFF_TYPE_ASCII ∧
    get_makernote_string 0 0 ⟨29, 2, 6, 1⟩ [9, 65, 66, 67, 68, 69, 0, 7] =
      some ((stringSource 0 0 ⟨29, 2, 6, 1⟩ [9, 65, 66, 67, 68, 69, 0, 7]).take (6 - 1)) ∧
    ((stringSource 0 0 ⟨29, 2, 6, 1⟩ [9, 65, 66, 67, 68, 69, 0, 7]).take (6 - 1)).length + 1 ≤ 6 := by
  have h := C8_string_trimmed 0 0 ⟨29, 2, 6, 1⟩ [9, 65, 66, 67, 68, 69, 0, 7]
    rfl (by norm_num) (by decide) (by decide)
  exact ⟨rfl, h.1, h.2⟩

/-! ## The NEF orchestrator (`main`, nef_parser.c lines 266-626)

Everything `main` does after reading the file into the buffer is embedded,
with the printed values collected into a record.  Casts of `buffer + offset`
to typed struct pointers become little-endian reads at the same byte
offsets; out-of-bounds reads (undefined behavior in C) read 0. -/

def EXIF_TAG_MODEL : Nat := 0x0110
def EXIF_TAG_SUBIFD_OFFSET : Nat := 0x014A
def EXIF_TAG_EXPOSURE_TIME : Nat := 0x829A
def EXIF_TAG_FNUMBER : Nat := 0x829D
def EXIF_TAG_EXIF_OFFSET : Nat := 0x8769
def EXIF_TAG_DATE_TIME_ORIGINAL : Nat := 0x9003
def EXIF_TAG_METERING_MODE : Nat := 0x9207
def EXIF_TAG_FOCAL_LENGTH : Nat := 0x920A
def EXIF_TAG_MAKERNOTE : Nat := 0x927C

def NIKON_TAG_MAKERNOTE_VERSION : Nat := 0x0001
def NIKON_TAG_QUALITY : Nat := 0x0004
def NIKON_TAG_WHITE_BALANCE : Nat := 0x0005
def NIKON_TAG_FOCUS_MODE : Nat := 0x0007
def NIKON_TAG_SERIAL_NUMBER : Nat := 0x001D
def NIKON_TAG_ISO_INFO : Nat := 0x0025
def NIKON_TAG_LENS_TYPE : Nat := 0x0083
def NIKON_TAG_LENS_DATA : Nat := 0x0098
def NIKON_TAG_SHUTTER_COUNT : Nat := 0x00A7

/-- Lens data is encrypted if its version is 201 or greater (nef.h). -/
def LENS_DATA_0201 : Nat := 201

/-- The bytes of the `MAKERNOTE_MAGIC` string "Nikon" (nef.h). -/
def MAKERNOTE_MAGIC : List Nat := [0x4E, 0x69, 0x6B, 0x6F, 0x6E]

/-- Modelled from the spec: `LENS_ID_OFFSET` is used at nef_parser.c line 597
but its `#define` is not among the provided headers.  The spec's design note
calls it an asserted vendor format constant (the fixed sub-offset of the
8-byte lens-identification key inside the lens-data payload); its concrete
value does not affect any claim settled here. -/
def LENS_ID_OFFSET : Nat := 16

/-- `tiff_offset = sizeof(struct makernote_header_t) - sizeof(struct
tiff_header_t)` (nef_parser.c line 493); both structs are packed, so this is
18 - 8 = 10: the nested TIFF header starts 10 bytes into the block, and
maker-note entry values are relative to it. -/
def MAKERNOTE_TIFF_OFFSET : Nat := 18 - 8

/-- `nikon_lens_id_table` (nef.h): the three hand-curated entries. -/
def nikon_lens_id_table : List (List Nat × String) :=
  [([0xE3, 0x40, 0x76, 0xA6, 0x38, 0x40, 0xDF, 0x4E],
      "Tamron SP 150-600mm f/5-6.3 Di VC USD G2"),
   ([0xAA, 0x48, 0x37, 0x5C, 0x24, 0x24, 0xC5, 0x4E],
      "AF-S Nikkor 24-70mm f/2.8E ED VR"),
   ([0xAE, 0x3C, 0x80, 0xA0, 0x3C, 0x3C, 0xC9, 0x4E],
      "AF-S Nikkor 200-500mm f/5.6E ED VR")]

/-- `nikon_lens_id_lookup`: linear `memcmp` scan over the table, first match
wins, NULL (here `none`) when no entry matches. -/
def nikon_lens_id_lookup (key : List Nat) : Option String :=
  (nikon_lens_id_table.find? (fun p => p.1 == key)).map (fun p => p.2)

/-- Read a `struct ifd_entry_t` at byte offset `off`. -/
def readEntry (b : List Nat) (off : Nat) : IfdEntry :=
  ⟨le16 b off, le16 b (off + 2), le32 b (off + 4), le32 b (off + 8)⟩

/-- The entries of the `struct ifd_t` at `off`: a 16-bit entry count
followed by that many 12-byte entries. -/
def readEntries (b : List Nat) (off : Nat) : List IfdEntry :=
  (List.range (le16 b off)).map (fun i => readEntry b (off + 2 + 12 * i))

/-- The local variables of the IFD0 loop (lines 345-378). -/
structure Ifd0Scan where
  exifOffset : Nat := 0
  subifdOffset : Nat := 0
  model : Option (List Nat) := none
  timestamp : Option (List Nat) := none

/-- One iteration of the IFD0 entry switch (lines 353-377). -/
def ifd0Step (buffer : List Nat) (s : Ifd0Scan) (e : IfdEntry) : Ifd0Scan :=
  if e.tag = EXIF_TAG_EXIF_OFFSET then { s with exifOffset := e.value }
  else if e.tag = EXIF_TAG_MODEL then
    { s with model := some (cstring (buffer.drop e.value)) }
  else if e.tag = EXIF_TAG_SUBIFD_OFFSET then
    { s with subifdOffset := if e.count > 2 then le32 buffer e.value else e.value }
  else if e.tag = EXIF_TAG_DATE_TIME_ORIGINAL then
    { s with timestamp := some (cstring (buffer.drop e.value)) }
  else s

/-- The local variables of the Exif IFD loop (lines 411-475). -/
structure ExifScan where
  makernoteOffset : Nat := 0
  exposureTime : Option FloatVal := none
  fnumber : Option FloatVal := none
  meteringMode : Option Nat := none
  focalLength : Option FloatVal := none

/-- One iteration of the Exif entry switch (lines 416-474); the metering
mode is recorded as the raw entry value (the switch on it only prints). -/
def exifStep (buffer : List Nat) (s : ExifScan) (e : IfdEntry) : ExifScan :=
  if e.tag = EXIF_TAG_MAKERNOTE then { s with makernoteOffset := e.value }
  else if e.tag = EXIF_TAG_EXPOSURE_TIME then
    { s with exposureTime := some (get_tiff_rational e buffer) }
  else if e.tag = EXIF_TAG_FNUMBER then
    { s with fnumber := some (get_tiff_rational e buffer) }
  else if e.tag = EXIF_TAG_METERING_MODE then { s with meteringMode := some e.value }
  else if e.tag = EXIF_TAG_FOCAL_LENGTH then
    { s with focalLength := some (get_tiff_rational e buffer) }
  else s

/-- The local variables of the maker-note loop (lines 484-575).  In C,
`lens_type` is a plain `uint8_t` initialized to 0 and `serial_number` a
`char*` initialized to NULL; `none` models "never assigned" and the
consumers below read it back with the same defaults the C locals have. -/
structure MakernoteScan where
  mkVersion : Option (List Nat) := none
  shutterCount : Option Nat := none
  focusMode : Option (List Nat) := none
  quality : Option (List Nat) := none
  whiteBalance : Option (List Nat) := none
  serialNumber : Option (List Nat) := none
  iso : Option Nat := none
  lensType : Option Nat := none
  lensData : Option IfdEntry := none

/-- One iteration of the maker-note entry switch (lines 500-574). -/
noncomputable def makernoteStep (buffer : List Nat) (mno : Nat)
    (s : MakernoteScan) (e : IfdEntry) : MakernoteScan :=
  if e.tag = NIKON_TAG_MAKERNOTE_VERSION then
    { s with mkVersion := some (cstring ((valueBytes e.value).take e.count)) }
  else if e.tag = NIKON_TAG_SHUTTER_COUNT then { s with shutterCount := some e.value }
  else if e.tag = NIKON_TAG_FOCUS_MODE then
    { s with focusMode := get_makernote_string mno MAKERNOTE_TIFF_OFFSET e buffer }
  else if e.tag = NIKON_TAG_QUALITY then
    { s with quality := get_makernote_string mno MAKERNOTE_TIFF_OFFSET e buffer }
  else if e.tag = NIKON_TAG_WHITE_BALANCE then
    { s with whiteBalance := get_makernote_string mno MAKERNOTE_TIFF_OFFSET e buffer }
  else if e.tag = NIKON_TAG_SERIAL_NUMBER then
    { s with serialNumber := get_makernote_string mno MAKERNOTE_TIFF_OFFSET e buffer }
  else if e.tag = NIKON_TAG_ISO_INFO then
    { s with iso := some (isoOfRaw (byteAt buffer (mno + MAKERNOTE_TIFF_OFFSET + e.value))) }
  else if e.tag = NIKON_TAG_LENS_TYPE then { s with lensType := some (e.value % 256) }
  else if e.tag = NIKON_TAG_LENS_DATA then { s with lensData := some e }
  else s

/-- Outcome of the lens-resolution step: the printed model string, the
"Unknown Model." branch, or the undefined behavior of calling
`strtoull(NULL, NULL, 10)` inside `decrypt` when the serial-number tag was
never seen (serial_number still NULL). -/
inductive LensOutcome where
  | model (id : String)
  | unknown
  | ubNullSerial
deriving DecidableEq, Repr

/-- Replace `s.length` bytes of `b` starting at `pos` (the in-place decrypt
write-back). -/
def writeSlice (b : List Nat) (pos : Nat) (s : List Nat) : List Nat :=
  b.take pos ++ s ++ b.drop (pos + s.length)

/-- The deferred lens-data processing (lines 577-610): read the 4-byte ASCII
version, decrypt in place when it is >= 201 (which dereferences the NULL
serial pointer when the serial tag was absent - modelled as `none`, i.e.
`LensOutcome.ubNullSerial`; `decrypt` skips everything when the size
`count - 4` is 0), then look up the 8-byte composite key, whose last byte
is the collected lens type.  (C computes `count - 4` in `uint32_t`, which
wraps for `count < 4`; `Nat` subtraction truncates instead - no claim
depends on such an entry.) -/
def processLensData (buffer : List Nat) (mno : Nat) (ld : IfdEntry)
    (serial : Option (List Nat)) (shutter lensType : Nat) : LensOutcome :=
  let off := mno + MAKERNOTE_TIFF_OFFSET + ld.value
  let version := strtoull10 (readBytes buffer off 4)
  let afterDecrypt : Option (List Nat) :=
    if LENS_DATA_0201 ≤ version then
      if ld.count - 4 = 0 then some buffer
      else
        match serial with
        | none => none
        | some s => some (writeSlice buffer (off + 4)
            (decrypt (readBytes buffer (off + 4) (ld.count - 4)) s shutter))
    else some buffer
  match afterDecrypt with
  | none => LensOutcome.ubNullSerial
  | some buf2 =>
      match nikon_lens_id_lookup (readBytes buf2 (off + LENS_ID_OFFSET) 7 ++ [lensType]) with
      | some id => LensOutcome.model id
      | none => LensOutcome.unknown

/-- The maker-note fields of the final record. -/
structure MakernoteOutput where
  mkVersion : Option (List Nat)
  shutterCount : Option Nat
  focusMode : Option (List Nat)
  quality : Option (List Nat)
  whiteBalance : Option (List Nat)
  serialNumber : Option (List Nat)
  iso : Option Nat
  lensType : Option Nat
  lens : Option LensOutcome
deriving DecidableEq, Repr

/-- The maker-note section of `main` (lines 477-615): validate the "Nikon"
magic with `strcmp`, walk the nested IFD at `makernote_offset + 18`, then
run the deferred lens-data processing; a magic mismatch leaves every
maker-note field absent (`none`). -/
noncomputable def walkMakernote (buffer : List Nat) (mno : Nat) : Option MakernoteOutput :=
  if cstring (buffer.drop mno) = MAKERNOTE_MAGIC then
    let s := (readEntries buffer (mno + 18)).foldl (makernoteStep buffer mno) {}
    some { mkVersion := s.mkVersion, shutterCount := s.shutterCount,
           focusMode := s.focusMode, quality := s.quality,
           whiteBalance := s.whiteBalance, serialNumber := s.serialNumber,
           iso := s.iso, lensType := s.lensType,
           lens := s.lensData.map (fun ld =>
             processLensData buffer mno ld s.serialNumber
               (s.shutterCount.getD 0) (s.lensType.getD 0)) }
  else none

/-- Everything `main` prints for one file, as a record. -/
structure NefOutput where
  model : Option (List Nat)
  timestamp : Option (List Nat)
  subifdOffset : Nat
  exifOffset : Nat
  nextIfdOffset : Nat
  exposureTime : Option FloatVal
  fnumber : Option FloatVal
  meteringMode : Option Nat
  focalLength : Option FloatVal
  makernote : Option MakernoteOutput
deriving DecidableEq, Repr

/-- Result of one parse: the header-validation failure ("Error: Invalid
NEF.", after which nothing further is parsed), or the produced record. -/
inductive ParseResult where
  | invalidContainer
  | parsed (o : NefOutput)
deriving DecidableEq, Repr

/-- `main`'s parse of the in-memory buffer (lines 331-618): validate the
TIFF header, walk IFD0 at the header's IFD0 offset, read the next-IFD
offset at `8 + 2 + 12 * entries` (the code hardcodes the header size there),
walk the Exif IFD at the recorded Exif offset with no check of any kind,
then process the maker-note.  (The sub-IFD loop body is empty with
debugging off, so only its offset is recorded.) -/
noncomputable def parseNef (buffer : List Nat) : ParseResult :=
  if le16 buffer 2 ≠ TIFF_MAGIC ∨ le16 buffer 0 ≠ TIFF_LITTLE_ENDIAN then
    ParseResult.invalidContainer
  else
    let ifd0Offset := le32 buffer 4
    let s0 := (readEntries buffer ifd0Offset).foldl (ifd0Step buffer) {}
    let nextIfdOffset := le32 buffer (8 + 2 + 12 * le16 buffer ifd0Offset)
    let sE := (readEntries buffer s0.exifOffset).foldl (exifStep buffer) {}
    ParseResult.parsed
      { model := s0.model, timestamp := s0.timestamp,
        subifdOffset := s0.subifdOffset, exifOffset := s0.exifOffset,
        nextIfdOffset := nextIfdOffset, exposureTime := sE.exposureTime,
        fnumber := sE.fnumber, meteringMode := sE.meteringMode,
        focalLength := sE.focalLength,
        makernote := walkMakernote buffer sE.makernoteOffset }

/-- C5: header validation succeeds (a record is produced) exactly when the
byte-order field is the little-endian marker 0x4949 and the magic field is
0x2A; any other combination yields the InvalidContainer failure and no
record. -/
theorem C5_header_validation (buffer : List Nat) :
    ((∃ o, parseNef buffer = ParseResult.parsed o) ↔
      (le16 buffer 0 = TIFF_LITTLE_ENDIAN ∧ le16 buffer 2 = TIFF_MAGIC)) ∧
    (parseNef buffer = ParseResult.invalidContainer ↔
      ¬(le16 buffer 0 = TIFF_LITTLE_ENDIAN ∧ le16 buffer 2 = TIFF_MAGIC)) := by
  by_cases h : le16 buffer 2 ≠ TIFF_MAGIC ∨ le16 buffer 0 ≠ TIFF_LITTLE_ENDIAN
  · rw [parseNef, if_pos h]
    refine ⟨⟨fun hex => ?_, fun hc => absurd hc (by tauto)⟩,
      ⟨fun _ => by tauto, fun _ => rfl⟩⟩
    obtain ⟨o, ho⟩ := hex
    exact absurd ho (by simp)
  · rw [parseNef, if_neg h]
    push_neg at h
    refine ⟨⟨fun _ => ⟨h.2, h.1⟩, fun _ => ⟨_, rfl⟩⟩,
      ⟨fun hc => absurd hc (by simp), fun hc => absurd ⟨h.2, h.1⟩ hc⟩⟩

/-- A 26-byte container: valid little-endian TIFF header, IFD0 with a single
entry - an Exif-pointer (tag 0x8769) whose recorded offset 9999 lies far
outside the buffer - and a zero next-IFD offset. -/
def c6buf : List Nat :=
  [0x49, 0x49, 0x2A, 0x00, 8, 0, 0, 0,
   1, 0,
   0x69, 0x87, 4, 0, 1, 0, 0, 0, 0x0F, 0x27, 0, 0,
   0, 0, 0, 0]

/-- C6 (code bug): `main` records the Exif offset 9999 from IFD0 and walks a
directory there with no nonzero or bounds check of any kind - in C this
dereferences memory past the 26-byte buffer (undefined behavior; the model
reads 0 bytes there, giving an empty directory) - and the parse still
produces a record; no MissingExifDirectory failure exists in the code. -/
theorem C6_exif_offset_unchecked :
    parseNef c6buf = ParseResult.parsed
      ⟨none, none, 0, 9999, 0, none, none, none, none, none⟩ ∧
    c6buf.length < 9999 := by
  constructor
  · rfl
  · norm_num [c6buf]

/-- An 84-byte container: valid header; IFD0 with one Exif-pointer entry to
the Exif IFD at 26; the Exif IFD holds one maker-note pointer (tag 0x927C)
to the maker-note block at 40; the block carries the "Nikon" magic and a
nested TIFF header, and its IFD holds a single lens-data entry (tag 0x98,
count 12, payload at maker-note-TIFF offset 22) whose 4-byte version is
"0201" - encrypted - followed by 8 payload bytes.  No serial-number tag and
no shutter-count tag appear anywhere. -/
def c2buf : List Nat :=
  [0x49, 0x49, 0x2A, 0x00, 8, 0, 0, 0,
   1, 0,
   0x69, 0x87, 4, 0, 1, 0, 0, 0, 26, 0, 0, 0,
   0, 0, 0, 0,
   1, 0,
   0x7C, 0x92, 7, 0, 1, 0, 0, 0, 40, 0, 0, 0,
   0x4E, 0x69, 0x6B, 0x6F, 0x6E, 0x00, 2, 0, 0, 0,
   0x49, 0x49, 0x2A, 0x00, 8, 0, 0, 0,
   1, 0,
   0x98, 0x00, 7, 0, 12, 0, 0, 0, 22, 0, 0, 0,
   0x30, 0x32, 0x30, 0x31, 1, 2, 3, 4, 5, 6, 7, 8]

/-- C2 (code bug): with a lens-data tag present, lens-data version "0201"
(encrypted) and no serial-number tag in the maker-note, `main` does not
short-circuit decryption: it calls `decrypt` with the NULL `serial_number`
pointer, which passes NULL to `strtoull` - undefined behavior, modelled as
`LensOutcome.ubNullSerial` - instead of reporting the lens model as
unknown. -/
theorem C2_null_serial_decrypt :
    parseNef c2buf = ParseResult.parsed
      ⟨none, none, 0, 26, 0, none, none, none, none,
        some ⟨none, none, none, none, none, none, none, none,
          some LensOutcome.ubNullSerial⟩⟩ := by
  rfl
